import Mathlib

/-!
Verification of the Alloy Composition Engine of `goldash`
(`src/goldash/goldash.cpp`, two program variants sharing the same core
formulas).  The engine's arithmetic is embedded shallowly over `ℚ`:
the C++ `double` computations are modelled as exact rational arithmetic,
and "never surfaces NaN/Inf" becomes "every denominator is nonzero".
-/

namespace Goldash

/-- Density of water in g per cubic cm (`DENSITY_WATER` in the source). -/
def DENSITY_WATER : ℚ := 1.0

/-- Density of pure gold (`DENSITY_PURE_GOLD` in the source). -/
def DENSITY_PURE_GOLD : ℚ := 19.32

/-- Density of copper (`DENSITY_COPPER` in the source). -/
def DENSITY_COPPER : ℚ := 8.96

/-- Density of silver (`DENSITY_SILVER` in the source). -/
def DENSITY_SILVER : ℚ := 10.49

/-- Density of platinum (`DENSITY_PLATINUM` in the source). -/
def DENSITY_PLATINUM : ℚ := 21.45

/-- Density of palladium (`DENSITY_PALLADIUM` in the source). -/
def DENSITY_PALLADIUM : ℚ := 12.02

/-- The three derived quantities both purity entry points compute:
`massOfPureGold`, `purityPercentage`, `karats` (local doubles in
`performPurityCalculation` and `performDensityToPurityConversion`). -/
structure PurityResult where
  massOfPureGold : ℚ
  purityPercentage : ℚ
  karats : ℚ
deriving DecidableEq, Repr

/-- The density-range gate both purity entry points apply
(lines 157-160 / 586-589 / 635-638 of the source): the sample is
treated as valid exactly when the branch
`objectDensity < lowerBound - 0.05 || objectDensity > upperBound + 0.05`
is NOT taken, with `lowerBound = min(19.32, densityOfImpurity)` and
`upperBound = max(19.32, densityOfImpurity)`. -/
def densityValid (objectDensity densityOfImpurity : ℚ) : Bool :=
  let lowerBound := min DENSITY_PURE_GOLD densityOfImpurity
  let upperBound := max DENSITY_PURE_GOLD densityOfImpurity
  !(decide (objectDensity < lowerBound - 0.05) ||
    decide (objectDensity > upperBound + 0.05))

/-- The density the buoyancy path derives (lines 145-147 of the first
variant): `objectVolume = (weightInAir - weightInWater) / DENSITY_WATER`,
`objectDensity = weightInAir / objectVolume`. -/
def buoyancyDensity (weightInAir weightInWater : ℚ) : ℚ :=
  weightInAir / ((weightInAir - weightInWater) / DENSITY_WATER)

/-- `performPurityCalculation` of the first variant (lines 126-181),
restricted to its numeric core: the caller has already validated
`0 < weightInWater < weightInAir` and chosen `densityOfImpurity`. -/
def performPurityCalculation
    (densityOfImpurity weightInAir weightInWater : ℚ) : PurityResult :=
  let displacedWaterMass := weightInAir - weightInWater
  let objectVolume := displacedWaterMass / DENSITY_WATER
  let objectDensity := weightInAir / objectVolume
  let lowerBound := min DENSITY_PURE_GOLD densityOfImpurity
  let upperBound := max DENSITY_PURE_GOLD densityOfImpurity
  if objectDensity < lowerBound - 0.05 ∨ objectDensity > upperBound + 0.05 then
    ⟨0, 0, 0⟩
  else if |objectDensity - DENSITY_PURE_GOLD| < 0.05 then
    ⟨weightInAir, 100, 24⟩
  else
    let volumeFractionGold :=
      (objectDensity - densityOfImpurity) / (DENSITY_PURE_GOLD - densityOfImpurity)
    let massOfPureGold := (volumeFractionGold * objectVolume) * DENSITY_PURE_GOLD
    let purityPercentage := (massOfPureGold / weightInAir) * 100
    ⟨massOfPureGold, purityPercentage, purityPercentage * (24 / 100)⟩

/-- The weight-path purity computation of the second variant
(lines 579-603), parameterized by the already-derived `objectDensity`
and `totalMass = weightInAir`; there `objectVolume` is recovered as
`weightInAir / objectDensity`. -/
def purityFromMeasuredDensity
    (objectDensity totalMass densityOfImpurity : ℚ) : PurityResult :=
  let objectVolume := totalMass / objectDensity
  let lowerBound := min DENSITY_PURE_GOLD densityOfImpurity
  let upperBound := max DENSITY_PURE_GOLD densityOfImpurity
  if objectDensity < lowerBound - 0.05 ∨ objectDensity > upperBound + 0.05 then
    ⟨0, 0, 0⟩
  else if |objectDensity - DENSITY_PURE_GOLD| < 0.05 then
    ⟨totalMass, 100, 24⟩
  else
    let volumeFractionGold :=
      (objectDensity - densityOfImpurity) / (DENSITY_PURE_GOLD - densityOfImpurity)
    let massOfPureGold := (volumeFractionGold * objectVolume) * DENSITY_PURE_GOLD
    let purityPercentage := (massOfPureGold / totalMass) * 100
    ⟨massOfPureGold, purityPercentage, purityPercentage * (24 / 100)⟩

/-- `performDensityToPurityConversion` (lines 186-227 / 618-660): purity
from a known density and total mass, via the reciprocal-density mass
fraction `((1/d) - (1/i)) / ((1/19.32) - (1/i))`. -/
def performDensityToPurityConversion
    (objectDensity totalMass densityOfImpurity : ℚ) : PurityResult :=
  let lowerBound := min DENSITY_PURE_GOLD densityOfImpurity
  let upperBound := max DENSITY_PURE_GOLD densityOfImpurity
  if objectDensity < lowerBound - 0.05 ∨ objectDensity > upperBound + 0.05 then
    ⟨0, 0, 0⟩
  else if |objectDensity - DENSITY_PURE_GOLD| < 0.05 then
    ⟨totalMass, 100, 24⟩
  else
    let massFraction :=
      ((1 / objectDensity) - (1 / densityOfImpurity)) /
        ((1 / DENSITY_PURE_GOLD) - (1 / densityOfImpurity))
    let purityPercentage := massFraction * 100
    ⟨totalMass * massFraction, purityPercentage, purityPercentage * (24 / 100)⟩

/-- `calculateMarketValue` (lines 113-121 / 541-553): returns without
computing a value when `pureGoldMass <= 0`, else `mass * pricePerGram`. -/
def calculateMarketValue (pureGoldMass pricePerGram : ℚ) : Option ℚ :=
  if pureGoldMass ≤ 0 then none
  else some (pureGoldMass * pricePerGram)

/-- The impurity mass and total alloy mass `performAlloyingCalculation`
computes (lines 232-255 / 665-696); the caller has validated
`0 < goldMass` and `0 < targetKarat < 24`. -/
structure AlloyingResult where
  impurityMass : ℚ
  totalAlloyMass : ℚ
deriving DecidableEq, Repr

/-- `performAlloyingCalculation` numeric core (lines 246-249 / 685-687):
`targetPurity = targetKarat / 24`,
`impurityMass = goldMass * (1/targetPurity - 1)`,
`totalAlloyMass = goldMass + impurityMass`. -/
def performAlloyingCalculation (goldMass targetKarat : ℚ) : AlloyingResult :=
  let targetPurity := targetKarat / 24
  let impurityMass := goldMass * ((1 / targetPurity) - 1)
  ⟨impurityMass, goldMass + impurityMass⟩

/-- Modelled from the spec: the reverse-alloying operation of
§4.1 ("Reverse alloying (raise karat of an existing alloy by adding pure
gold)") is described by the spec but absent from `src/goldash/goldash.cpp`.
Per the spec: precondition `initialKarat < targetKarat` with
`targetKarat = 24` rejected (singular division) and `initialMass > 0`;
then with `initialPurity = initialKarat/24`, `targetPurity = targetKarat/24`:
`addedGoldMass = initialMass * (targetPurity - initialPurity) / (1 - targetPurity)`
and `finalMass = initialMass + addedGoldMass`.  A violated precondition is
rejected with no computation (`none`). -/
def performReverseAlloying
    (initialMass initialKarat targetKarat : ℚ) : Option (ℚ × ℚ) :=
  if 0 < initialMass ∧ initialKarat < targetKarat ∧ targetKarat < 24 then
    let initialPurity := initialKarat / 24
    let targetPurity := targetKarat / 24
    let addedGoldMass :=
      initialMass * (targetPurity - initialPurity) / (1 - targetPurity)
    some (addedGoldMass, initialMass + addedGoldMass)
  else none

/-- Unfolding lemma: the validity flag is true iff the rejection branch
condition of the purity entry points is false. -/
lemma densityValid_eq_true_iff (d i : ℚ) :
    densityValid d i = true ↔
      ¬(d < min DENSITY_PURE_GOLD i - 0.05 ∨ d > max DENSITY_PURE_GOLD i + 0.05) := by
  unfold densityValid
  simp only [Bool.not_eq_true', Bool.or_eq_false_iff, decide_eq_false_iff_not, not_or]

/-- Unfolding lemma: the validity flag is false iff the rejection branch
condition of the purity entry points holds. -/
lemma densityValid_eq_false_iff (d i : ℚ) :
    densityValid d i = false ↔
      (d < min DENSITY_PURE_GOLD i - 0.05 ∨ d > max DENSITY_PURE_GOLD i + 0.05) := by
  rw [← Bool.not_eq_true, densityValid_eq_true_iff, not_not]

/-- The water-density constant is the rational 1. -/
lemma DENSITY_WATER_eq_one : DENSITY_WATER = 1 := by
  norm_num [DENSITY_WATER]

/-- C3: the sample is treated as density-valid iff the density lies in
`[min(19.32, impurityDensity) - 0.05, max(19.32, impurityDensity) + 0.05]`;
with copper, a density of exactly `impurityDensity - 0.06` is invalid and
`impurityDensity - 0.04` is valid. -/
theorem c3_density_validity_check :
    (∀ d i : ℚ, densityValid d i = true ↔
      min DENSITY_PURE_GOLD i - 0.05 ≤ d ∧ d ≤ max DENSITY_PURE_GOLD i + 0.05) ∧
    densityValid (DENSITY_COPPER - 0.06) DENSITY_COPPER = false ∧
    densityValid (DENSITY_COPPER - 0.04) DENSITY_COPPER = true := by
  refine ⟨fun d i => ?_,
    by rw [densityValid_eq_false_iff]
       norm_num [DENSITY_COPPER, DENSITY_PURE_GOLD, min_def, max_def],
    by rw [densityValid_eq_true_iff]
       norm_num [DENSITY_COPPER, DENSITY_PURE_GOLD, min_def, max_def]⟩
  rw [densityValid_eq_true_iff, not_or, not_lt, gt_iff_lt, not_lt]

/-- C5: forward alloying conserves mass: for `0 < goldMass` and
`0 < targetKarat < 24`, `goldMass / totalAlloyMass = targetKarat / 24`,
so recomputing the karat value from the alloy recovers `targetKarat`
exactly over the rationals. -/
theorem c5_forward_alloying_round_trip (goldMass targetKarat : ℚ)
    (hm : 0 < goldMass) (hk : 0 < targetKarat) (hk24 : targetKarat < 24) :
    goldMass / (performAlloyingCalculation goldMass targetKarat).totalAlloyMass
        = targetKarat / 24 ∧
    goldMass / (performAlloyingCalculation goldMass targetKarat).totalAlloyMass
        * 100 * (24 / 100) = targetKarat := by
  have hm' : goldMass ≠ 0 := ne_of_gt hm
  have hk' : targetKarat ≠ 0 := ne_of_gt hk
  have key : goldMass / (performAlloyingCalculation goldMass targetKarat).totalAlloyMass
      = targetKarat / 24 := by
    simp only [performAlloyingCalculation]
    have hden : goldMass + goldMass * ((1 / (targetKarat / 24)) - 1)
        = goldMass * 24 / targetKarat := by
      field_simp
      ring
    rw [hden, div_div_eq_mul_div]
    rw [div_eq_div_iff (by positivity) (by norm_num)]
    ring
  exact ⟨key, by rw [key]; field_simp⟩

/-- C5 witness: the spec's concrete scenario `goldMass = 10`,
`targetKarat = 18` satisfies the round-trip identity. -/
theorem c5_forward_alloying_round_trip_witness :
    (10 : ℚ) / (performAlloyingCalculation 10 18).totalAlloyMass = 18 / 24 ∧
    (10 : ℚ) / (performAlloyingCalculation 10 18).totalAlloyMass * 100 * (24 / 100) = 18 :=
  c5_forward_alloying_round_trip 10 18 (by norm_num) (by norm_num) (by norm_num)

/-- C6 (spec-modelled, operation absent from src): reverse alloying computes
`addedGoldMass = initialMass * (targetPurity - initialPurity) / (1 - targetPurity)`
and `finalMass = initialMass + addedGoldMass` when the precondition holds,
and rejects with no computation any violating request: targets at or
above 24 karat (including `targetKarat = 24` in the division path),
targets not above the initial karat, and non-positive masses. -/
theorem c6_reverse_alloying (initialMass initialKarat targetKarat : ℚ) :
    (0 < initialMass → initialKarat < targetKarat → targetKarat < 24 →
      performReverseAlloying initialMass initialKarat targetKarat =
        some (initialMass * (targetKarat / 24 - initialKarat / 24) / (1 - targetKarat / 24),
          initialMass +
            initialMass * (targetKarat / 24 - initialKarat / 24) / (1 - targetKarat / 24))) ∧
    (24 ≤ targetKarat →
      performReverseAlloying initialMass initialKarat targetKarat = none) ∧
    (targetKarat ≤ initialKarat →
      performReverseAlloying initialMass initialKarat targetKarat = none) ∧
    (initialMass ≤ 0 →
      performReverseAlloying initialMass initialKarat targetKarat = none) := by
  refine ⟨fun hm hik htk => ?_, fun h24 => ?_, fun hle => ?_, fun hm0 => ?_⟩
  · simp only [performReverseAlloying]
    rw [if_pos ⟨hm, hik, htk⟩]
  · simp only [performReverseAlloying]
    rw [if_neg]
    rintro ⟨-, -, hlt⟩
    exact absurd hlt (not_lt.mpr h24)
  · simp only [performReverseAlloying]
    rw [if_neg]
    rintro ⟨-, hlt, -⟩
    exact absurd hlt (not_lt.mpr hle)
  · simp only [performReverseAlloying]
    rw [if_neg]
    rintro ⟨hlt, -, -⟩
    exact absurd hlt (not_lt.mpr hm0)

/-- C6 witness: the spec's concrete scenario `initialMass = 20`,
`initialKarat = 14`, `targetKarat = 18` is accepted and computed, while
the violating request `initialMass = 5`, `initialKarat = 10`,
`targetKarat = 30` (target above 24) is rejected with no computation. -/
theorem c6_reverse_alloying_witness :
    performReverseAlloying 20 14 18 =
      some ((20 : ℚ) * (18 / 24 - 14 / 24) / (1 - 18 / 24),
        20 + (20 : ℚ) * (18 / 24 - 14 / 24) / (1 - 18 / 24)) ∧
    performReverseAlloying 5 10 30 = none :=
  ⟨(c6_reverse_alloying 20 14 18).1 (by norm_num) (by norm_num) (by norm_num),
    (c6_reverse_alloying 5 10 30).2.1 (by norm_num)⟩

/-- Exact value of the buoyancy density at the spec's concrete scenario
`weightInAir = 19.30`, `weightInWater = 18.00`. -/
lemma buoyancyDensity_scenario : buoyancyDensity 19.30 18.00 = 193 / 13 := by
  norm_num [buoyancyDensity, DENSITY_WATER]

/-- Exact value of the weight-path purity computation at the spec's
concrete scenario (copper impurity, 19.30 g in air, 18.00 g in water). -/
lemma performPurityCalculation_scenario :
    performPurityCalculation DENSITY_COPPER 19.30 18.00 =
      ⟨131997 / 9250, 527988 / 7141, 3167928 / 178525⟩ := by
  simp only [performPurityCalculation, DENSITY_COPPER, DENSITY_PURE_GOLD, DENSITY_WATER]
  norm_num [min_def, max_def, abs_lt, le_abs]

/-- C7 counterexample: at `weightInAir = 19.30`, `weightInWater = 18.00`,
impurity copper, the code's purity is ~73.94 percent and karat ~17.74,
far from the claimed 70.5 percent and 16.9 K. -/
theorem c7_concrete_scenario_counterexample :
    3 < |(performPurityCalculation DENSITY_COPPER 19.30 18.00).purityPercentage - 70.5| ∧
    0.8 < |(performPurityCalculation DENSITY_COPPER 19.30 18.00).karats - 16.9| := by
  rw [performPurityCalculation_scenario]
  constructor
  · refine lt_of_lt_of_le ?_ (le_abs_self _)
    norm_num
  · refine lt_of_lt_of_le ?_ (le_abs_self _)
    norm_num

/-- C7 (amended): at `weightInAir = 19.30`, `weightInWater = 18.00`,
impurity copper: density ~14.85, density-valid, purity ~73.94 percent
and karat ~17.74 K. -/
theorem c7_concrete_scenario :
    |buoyancyDensity 19.30 18.00 - 14.85| < 0.01 ∧
    densityValid (buoyancyDensity 19.30 18.00) DENSITY_COPPER = true ∧
    |(performPurityCalculation DENSITY_COPPER 19.30 18.00).purityPercentage - 73.94| < 0.01 ∧
    |(performPurityCalculation DENSITY_COPPER 19.30 18.00).karats - 17.74| < 0.01 := by
  rw [buoyancyDensity_scenario, performPurityCalculation_scenario]
  refine ⟨by norm_num [abs_lt], ?_, by norm_num [abs_lt],
    by norm_num [abs_lt]⟩
  rw [densityValid_eq_true_iff]
  norm_num [DENSITY_COPPER, DENSITY_PURE_GOLD, min_def, max_def]

/-- C8: density-invalid inputs yield the sentinel result
`(0, 0, 0)` from every purity entry point, and the market-value
computation returns without computing a value whenever
`pureGoldMass ≤ 0`. -/
theorem c8_sentinel_results
    (d m i p price weightInAir weightInWater : ℚ)
    (hv : densityValid d i = false)
    (hb : densityValid (buoyancyDensity weightInAir weightInWater) i = false)
    (hp : p ≤ 0) :
    performDensityToPurityConversion d m i = ⟨0, 0, 0⟩ ∧
    purityFromMeasuredDensity d m i = ⟨0, 0, 0⟩ ∧
    performPurityCalculation i weightInAir weightInWater = ⟨0, 0, 0⟩ ∧
    calculateMarketValue p price = none := by
  rw [densityValid_eq_false_iff] at hv
  rw [densityValid_eq_false_iff] at hb
  simp only [buoyancyDensity] at hb
  refine ⟨?_, ?_, ?_, ?_⟩
  · simp only [performDensityToPurityConversion]
    rw [if_pos hv]
  · simp only [purityFromMeasuredDensity]
    rw [if_pos hv]
  · simp only [performPurityCalculation]
    rw [if_pos hb]
  · simp only [calculateMarketValue]
    rw [if_pos hp]

/-- C8 witness: a density of 25 is invalid for a gold-copper alloy, as is
the buoyancy density of the pair (19.30, 1.00); the entry points return
zeros and a non-positive gold mass skips the market value. -/
theorem c8_sentinel_results_witness :
    performDensityToPurityConversion 25 10 DENSITY_COPPER = ⟨0, 0, 0⟩ ∧
    purityFromMeasuredDensity 25 10 DENSITY_COPPER = ⟨0, 0, 0⟩ ∧
    performPurityCalculation DENSITY_COPPER 19.30 1.00 = ⟨0, 0, 0⟩ ∧
    calculateMarketValue 0 5 = none :=
  c8_sentinel_results 25 10 DENSITY_COPPER 0 5 19.30 1.00
    (by rw [densityValid_eq_false_iff]
        norm_num [DENSITY_COPPER, DENSITY_PURE_GOLD, min_def, max_def])
    (by rw [densityValid_eq_false_iff]
        norm_num [buoyancyDensity, DENSITY_WATER, DENSITY_COPPER, DENSITY_PURE_GOLD,
          min_def, max_def])
    (by norm_num)

/-- C1: for `0 < totalMass` and a density passing the validity check, the
weight-path purity computation returns `(totalMass, 100, 24)` when
`|density - 19.32| < 0.05` regardless of the impurity, and otherwise the
volume-fraction result
`pureGoldMass = ((density - i) / (19.32 - i)) * (totalMass / density) * 19.32`,
`purityPercentage = pureGoldMass / totalMass * 100`,
`karats = purityPercentage * (24/100)`. -/
theorem c1_pure_gold_forward_inference
    (objectDensity totalMass densityOfImpurity : ℚ)
    (hm : 0 < totalMass)
    (hv : densityValid objectDensity densityOfImpurity = true) :
    (|objectDensity - DENSITY_PURE_GOLD| < 0.05 →
      purityFromMeasuredDensity objectDensity totalMass densityOfImpurity =
        ⟨totalMass, 100, 24⟩) ∧
    (¬|objectDensity - DENSITY_PURE_GOLD| < 0.05 →
      purityFromMeasuredDensity objectDensity totalMass densityOfImpurity =
        ⟨(objectDensity - densityOfImpurity) / (DENSITY_PURE_GOLD - densityOfImpurity)
            * (totalMass / objectDensity) * DENSITY_PURE_GOLD,
          (objectDensity - densityOfImpurity) / (DENSITY_PURE_GOLD - densityOfImpurity)
            * (totalMass / objectDensity) * DENSITY_PURE_GOLD / totalMass * 100,
          (objectDensity - densityOfImpurity) / (DENSITY_PURE_GOLD - densityOfImpurity)
            * (totalMass / objectDensity) * DENSITY_PURE_GOLD / totalMass * 100
            * (24 / 100)⟩) := by
  have hcond := (densityValid_eq_true_iff objectDensity densityOfImpurity).mp hv
  constructor
  · intro h
    simp only [purityFromMeasuredDensity]
    rw [if_neg hcond, if_pos h]
  · intro h
    simp only [purityFromMeasuredDensity]
    rw [if_neg hcond, if_neg h]

/-- C1 witness: a density of exactly 19.32 with copper impurity and mass
10 is valid, short-circuits, and returns full purity. -/
theorem c1_pure_gold_forward_inference_witness :
    purityFromMeasuredDensity 19.32 10 DENSITY_COPPER = ⟨10, 100, 24⟩ :=
  (c1_pure_gold_forward_inference 19.32 10 DENSITY_COPPER (by norm_num)
    (by rw [densityValid_eq_true_iff]
        norm_num [DENSITY_COPPER, DENSITY_PURE_GOLD, min_def, max_def])).1
    (by norm_num [DENSITY_PURE_GOLD])

/-- C2: for `weightInAir > weightInWater > 0` the buoyancy entry point
derives `density = weightInAir / (weightInAir - weightInWater)` and runs
the purity computation with that density and `totalMass = weightInAir`. -/
theorem c2_density_from_buoyancy
    (weightInAir weightInWater densityOfImpurity : ℚ)
    (h0 : 0 < weightInWater) (h1 : weightInWater < weightInAir) :
    buoyancyDensity weightInAir weightInWater
        = weightInAir / (weightInAir - weightInWater) ∧
    performPurityCalculation densityOfImpurity weightInAir weightInWater =
      purityFromMeasuredDensity (buoyancyDensity weightInAir weightInWater)
        weightInAir densityOfImpurity := by
  have hD : weightInAir - weightInWater ≠ 0 :=
    sub_ne_zero.mpr (ne_of_gt h1)
  have ha : weightInAir ≠ 0 := ne_of_gt (h0.trans h1)
  have hvol : weightInAir / (weightInAir / (weightInAir - weightInWater))
      = weightInAir - weightInWater := by
    rw [div_div_eq_mul_div, mul_comm, mul_div_assoc, div_self ha, mul_one]
  constructor
  · simp only [buoyancyDensity, DENSITY_WATER_eq_one, div_one]
  · simp only [performPurityCalculation, purityFromMeasuredDensity, buoyancyDensity,
      DENSITY_WATER_eq_one, div_one]
    rw [hvol]

/-- C2 witness: the concrete pair (19.30, 18.00) with copper. -/
theorem c2_density_from_buoyancy_witness :
    buoyancyDensity 19.30 18.00 = (19.30 : ℚ) / (19.30 - 18.00) ∧
    performPurityCalculation DENSITY_COPPER 19.30 18.00 =
      purityFromMeasuredDensity (buoyancyDensity 19.30 18.00) 19.30 DENSITY_COPPER :=
  c2_density_from_buoyancy 19.30 18.00 DENSITY_COPPER (by norm_num) (by norm_num)

/-- C4: the volume-fraction derivation (weight path) and the
reciprocal-density mass-fraction derivation (density path) return the
same result for every positive density, mass and impurity density with
`impurityDensity ≠ 19.32`, exactly over the rationals. -/
theorem c4_two_derivations_agree
    (objectDensity totalMass densityOfImpurity : ℚ)
    (hd : 0 < objectDensity) (hm : 0 < totalMass) (hi : 0 < densityOfImpurity)
    (hig : densityOfImpurity ≠ DENSITY_PURE_GOLD) :
    purityFromMeasuredDensity objectDensity totalMass densityOfImpurity =
      performDensityToPurityConversion objectDensity totalMass densityOfImpurity := by
  have hd' : objectDensity ≠ 0 := ne_of_gt hd
  have hm' : totalMass ≠ 0 := ne_of_gt hm
  have hi' : densityOfImpurity ≠ 0 := ne_of_gt hi
  have hg : DENSITY_PURE_GOLD ≠ 0 := by norm_num [DENSITY_PURE_GOLD]
  have hgi : DENSITY_PURE_GOLD - densityOfImpurity ≠ 0 := sub_ne_zero.mpr (Ne.symm hig)
  have hrec : (1 : ℚ) / DENSITY_PURE_GOLD - 1 / densityOfImpurity ≠ 0 := by
    intro h
    rw [sub_eq_zero, div_eq_div_iff hg hi', one_mul, one_mul] at h
    exact hig h
  have hfrac : ((1 : ℚ) / objectDensity - 1 / densityOfImpurity) /
      ((1 : ℚ) / DENSITY_PURE_GOLD - 1 / densityOfImpurity) =
      ((objectDensity - densityOfImpurity) * DENSITY_PURE_GOLD) /
        ((DENSITY_PURE_GOLD - densityOfImpurity) * objectDensity) := by
    rw [div_eq_div_iff hrec (mul_ne_zero hgi hd')]
    field_simp
    ring
  simp only [purityFromMeasuredDensity, performDensityToPurityConversion]
  split_ifs with h1 h2
  · rfl
  · rfl
  · rw [PurityResult.mk.injEq, hfrac]
    refine ⟨?_, ?_, ?_⟩
    · field_simp
      ring
    · field_simp
      ring
    · field_simp
      ring

/-- C4 witness: density 14, mass 10, copper impurity. -/
theorem c4_two_derivations_agree_witness :
    purityFromMeasuredDensity 14 10 DENSITY_COPPER =
      performDensityToPurityConversion 14 10 DENSITY_COPPER :=
  c4_two_derivations_agree 14 10 DENSITY_COPPER (by norm_num)
    (by norm_num) (by norm_num [DENSITY_COPPER])
    (by norm_num [DENSITY_COPPER, DENSITY_PURE_GOLD])

/-- C9: on inputs admitted by the validation loops (positive numbers,
`weightInWater < weightInAir`, `0 < targetKarat < 24`, impurity density
one of the four catalog constants), every denominator the program divides
by is nonzero, so no NaN or Inf is ever produced. -/
theorem c9_no_nan_inf
    (weightInAir weightInWater targetKarat densityOfImpurity : ℚ)
    (h0 : 0 < weightInWater) (h1 : weightInWater < weightInAir)
    (hk : 0 < targetKarat) (hk24 : targetKarat < 24)
    (hi : densityOfImpurity = DENSITY_COPPER ∨ densityOfImpurity = DENSITY_SILVER ∨
      densityOfImpurity = DENSITY_PLATINUM ∨ densityOfImpurity = DENSITY_PALLADIUM) :
    weightInAir - weightInWater ≠ 0 ∧
    0 < buoyancyDensity weightInAir weightInWater ∧
    DENSITY_PURE_GOLD - densityOfImpurity ≠ 0 ∧
    (1 : ℚ) / DENSITY_PURE_GOLD - 1 / densityOfImpurity ≠ 0 ∧
    targetKarat / 24 ≠ 0 := by
  refine ⟨sub_ne_zero.mpr (ne_of_gt h1), ?_, ?_, ?_,
    div_ne_zero (ne_of_gt hk) (by norm_num)⟩
  · simp only [buoyancyDensity, DENSITY_WATER_eq_one, div_one]
    exact div_pos (h0.trans h1) (sub_pos.mpr h1)
  · obtain hi | hi | hi | hi := hi <;> rw [hi] <;>
      norm_num [DENSITY_PURE_GOLD, DENSITY_COPPER, DENSITY_SILVER,
        DENSITY_PLATINUM, DENSITY_PALLADIUM]
  · obtain hi | hi | hi | hi := hi <;> rw [hi] <;>
      norm_num [DENSITY_PURE_GOLD, DENSITY_COPPER, DENSITY_SILVER,
        DENSITY_PLATINUM, DENSITY_PALLADIUM]

/-- C9 witness: the concrete admitted input (19.30, 18.00, karat 18,
copper) has all denominators nonzero. -/
theorem c9_no_nan_inf_witness :
    (19.30 : ℚ) - 18.00 ≠ 0 ∧
    0 < buoyancyDensity 19.30 18.00 ∧
    DENSITY_PURE_GOLD - DENSITY_COPPER ≠ 0 ∧
    (1 : ℚ) / DENSITY_PURE_GOLD - 1 / DENSITY_COPPER ≠ 0 ∧
    (18 : ℚ) / 24 ≠ 0 :=
  c9_no_nan_inf 19.30 18.00 18 DENSITY_COPPER (by norm_num) (by norm_num)
    (by norm_num) (by norm_num) (Or.inl rfl)

/-- C10: passing the density validity check does not bound the purity to
`[0, 100]`: with copper, any density in `[8.91, 8.96)` is accepted yet
yields negative pure-gold mass, purity and karat, and the accepted
density `max(19.32, 8.96) + 0.05` yields purity above 100. -/
theorem c10_valid_but_out_of_range (d m : ℚ) (hm : 0 < m)
    (h1 : DENSITY_COPPER - 0.05 ≤ d) (h2 : d < DENSITY_COPPER) :
    (densityValid d DENSITY_COPPER = true ∧
      (purityFromMeasuredDensity d m DENSITY_COPPER).massOfPureGold < 0 ∧
      (purityFromMeasuredDensity d m DENSITY_COPPER).purityPercentage < 0 ∧
      (purityFromMeasuredDensity d m DENSITY_COPPER).karats < 0) ∧
    (densityValid (max DENSITY_PURE_GOLD DENSITY_COPPER + 0.05) DENSITY_COPPER = true ∧
      100 < (purityFromMeasuredDensity (max DENSITY_PURE_GOLD DENSITY_COPPER + 0.05)
        m DENSITY_COPPER).purityPercentage) := by
  have hm' : m ≠ 0 := ne_of_gt hm
  have hd0 : 0 < d := by
    have : (8.91 : ℚ) ≤ d := by
      calc (8.91 : ℚ) = DENSITY_COPPER - 0.05 := by norm_num [DENSITY_COPPER]
      _ ≤ d := h1
    linarith
  have h1' : DENSITY_COPPER - 0.05 ≤ d := h1
  rw [DENSITY_COPPER] at h1' h2
  constructor
  · refine ⟨?_, ?_⟩
    · rw [densityValid_eq_true_iff]
      norm_num [DENSITY_COPPER, DENSITY_PURE_GOLD, min_def, max_def]
      constructor <;> linarith
    · have hmass : (purityFromMeasuredDensity d m DENSITY_COPPER).massOfPureGold < 0 := by
        simp only [purityFromMeasuredDensity, DENSITY_COPPER, DENSITY_PURE_GOLD]
        rw [if_neg (by push_neg; constructor <;> [skip; skip] <;>
          norm_num [min_def, max_def] <;> linarith)]
        rw [if_neg (by rw [abs_lt]; push_neg; intro hc; linarith)]
        have hfrac : (d - 8.96) / ((19.32 : ℚ) - 8.96) < 0 :=
          div_neg_of_neg_of_pos (by linarith) (by norm_num)
        have hvolpos : (0 : ℚ) < m / d := div_pos hm hd0
        exact mul_neg_of_neg_of_pos
          (mul_neg_of_neg_of_pos hfrac hvolpos) (by norm_num)
      have hpur : (purityFromMeasuredDensity d m DENSITY_COPPER).purityPercentage < 0 := by
        have heq : (purityFromMeasuredDensity d m DENSITY_COPPER).purityPercentage =
            (purityFromMeasuredDensity d m DENSITY_COPPER).massOfPureGold / m * 100 := by
          simp only [purityFromMeasuredDensity, DENSITY_COPPER, DENSITY_PURE_GOLD]
          rw [if_neg (by push_neg; constructor <;> [skip; skip] <;>
            norm_num [min_def, max_def] <;> linarith)]
          rw [if_neg (by rw [abs_lt]; push_neg; intro hc; linarith)]
        rw [heq]
        exact mul_neg_of_neg_of_pos (div_neg_of_neg_of_pos hmass hm) (by norm_num)
      have hkar : (purityFromMeasuredDensity d m DENSITY_COPPER).karats < 0 := by
        have heq : (purityFromMeasuredDensity d m DENSITY_COPPER).karats =
            (purityFromMeasuredDensity d m DENSITY_COPPER).purityPercentage * (24 / 100) := by
          simp only [purityFromMeasuredDensity, DENSITY_COPPER, DENSITY_PURE_GOLD]
          rw [if_neg (by push_neg; constructor <;> [skip; skip] <;>
            norm_num [min_def, max_def] <;> linarith)]
          rw [if_neg (by rw [abs_lt]; push_neg; intro hc; linarith)]
        rw [heq]
        exact mul_neg_of_neg_of_pos hpur (by norm_num)
      exact ⟨hmass, hpur, hkar⟩
  · constructor
    · rw [densityValid_eq_true_iff]
      norm_num [DENSITY_COPPER, DENSITY_PURE_GOLD, min_def, max_def]
    · have hmax : max DENSITY_PURE_GOLD DENSITY_COPPER + 0.05 = (19.37 : ℚ) := by
        norm_num [DENSITY_PURE_GOLD, DENSITY_COPPER, max_def]
      rw [hmax]
      have heval : (purityFromMeasuredDensity 19.37 m DENSITY_COPPER).purityPercentage =
          ((19.37 - 8.96) / ((19.32 : ℚ) - 8.96) * (m / 19.37) * 19.32) / m * 100 := by
        simp only [purityFromMeasuredDensity, DENSITY_COPPER, DENSITY_PURE_GOLD]
        rw [if_neg (by norm_num [min_def, max_def])]
        rw [if_neg (by rw [abs_lt]; norm_num)]
      rw [heval]
      have hconst : ((19.37 - 8.96) / ((19.32 : ℚ) - 8.96) * (m / 19.37) * 19.32) / m * 100
          = 7182900 / 71669 := by
        field_simp
        ring
      rw [hconst]
      norm_num

/-- C10 witness: density 8.93 with copper is accepted yet yields negative
results, and density 19.37 is accepted and yields purity above 100. -/
theorem c10_valid_but_out_of_range_witness :
    (densityValid 8.93 DENSITY_COPPER = true ∧
      (purityFromMeasuredDensity 8.93 10 DENSITY_COPPER).massOfPureGold < 0 ∧
      (purityFromMeasuredDensity 8.93 10 DENSITY_COPPER).purityPercentage < 0 ∧
      (purityFromMeasuredDensity 8.93 10 DENSITY_COPPER).karats < 0) ∧
    (densityValid (max DENSITY_PURE_GOLD DENSITY_COPPER + 0.05) DENSITY_COPPER = true ∧
      100 < (purityFromMeasuredDensity (max DENSITY_PURE_GOLD DENSITY_COPPER + 0.05)
        10 DENSITY_COPPER).purityPercentage) :=
  c10_valid_but_out_of_range 8.93 10 (by norm_num)
    (by norm_num [DENSITY_COPPER]) (by norm_num [DENSITY_COPPER])

end Goldash
